import Mathlib

/-!
Verification of the Informatch match-suggestion ranker and relationship flows.

The definitions below are a shallow embedding of the repository's code:

* `parseInterests`, `sharedCount`, `compatibilityScore`, `matchedUserIds`,
  `blockedUserIds`, `blockedByUserIds`, `suggestedProfiles` and
  `handleRequest` embed `supabase/functions/get-match-suggestions/index.ts`;
* `handleRejectMatch` embeds the reject handler of the status-flag
  notifications page, and `handleRejectRequest` the reject handler of
  `src/components/pages/Notifications.tsx`;
* definitions whose name starts with `spec` render a sentence of the
  natural-language specification, for refinement comparison against the code.

Database tables are modelled as lists of rows; the external store's reads are
modelled by a `Db` value threaded through the handler, and the possibility of
a backend read failing at each fetch step by the `FetchFailures` flags.
-/

namespace Informatch

/-- Profile row, as selected by the ranker: the `profiles` columns of the
`Profile` interface in `get-match-suggestions/index.ts`, with the three
`users` privacy columns joined in (the TS code flattens the nested `users`
record into the same object).  A missing (`null`) interests field and the
empty string are both falsy in the TS guard, so both are modelled as `""`. -/
structure Profile where
  profile_id : Nat
  user_id : String
  profile_username : String
  profile_bio : String
  profile_birthdate : String
  profile_academic_interests : String
  profile_non_academic_interests : String
  profile_looking_for : String
  profile_avatar_url : String
  profile_gender : String
  profile_phone : String
  user_priset_show_age : Bool
  user_priset_show_bio : Bool
  user_priset_is_private : Bool
deriving DecidableEq, Repr

/-- Row of the `matches` table.  The ranker's query selects rows by either
endpoint and never reads `status`; the column exists in the status-flag
schema generation, so it is carried here. -/
structure MatchRow where
  match_id : Nat
  match_user1_id : String
  match_user2_id : String
  status : String
deriving DecidableEq, Repr

/-- Row of the `blocked_users` table: directed blocker → blocked. -/
structure BlockRow where
  blocker_id : String
  blocked_id : String
deriving DecidableEq, Repr

/-- Row of the `notifications` table (fields the handlers touch). -/
structure NotificationRow where
  id : Nat
  user_id : String
  from_user_id : String
  type : String
  message : String
  read : Bool
deriving DecidableEq, Repr

/-- Row of the `users` table (fields the edge function inserts). -/
structure UserRow where
  user_id : String
  user_email : String
  user_phone : String
  user_email_verified : Bool
  user_phone_verified : Bool
deriving DecidableEq, Repr

/-- The durable store visible to the code under verification. -/
structure Db where
  users : List UserRow
  profiles : List Profile
  «matches» : List MatchRow
  blocked_users : List BlockRow
  notifications : List NotificationRow
deriving DecidableEq, Repr

/-- Character-level embedding of the JS `split(',')` primitive: cut the
character list at every comma, so `n` commas yield `n + 1` (possibly empty)
pieces.  The accumulator carries the current piece reversed. -/
def splitCommaChars : List Char → List Char → List (List Char)
  | [], acc => [acc.reverse]
  | c :: cs, acc =>
    if c = ',' then acc.reverse :: splitCommaChars cs []
    else splitCommaChars cs (c :: acc)

/-- JS `field.split(',')`. -/
def splitComma (s : String) : List String :=
  (splitCommaChars s.data []).map List.asString

/-- The whitespace characters JS `trim` removes, restricted to the ASCII
whitespace that can occur in an interests field. -/
def isSpaceChar (c : Char) : Bool :=
  c = ' ' || c = '\t' || c = '\n' || c = '\r'

/-- JS `t.trim()`: remove leading and trailing whitespace. -/
def trimChars (l : List Char) : List Char :=
  ((l.dropWhile isSpaceChar).reverse.dropWhile isSpaceChar).reverse

/-- JS `toLowerCase()`, character by character on ASCII letters. -/
def toLowerChar (c : Char) : Char :=
  if 'A' ≤ c ∧ c ≤ 'Z' then Char.ofNat (c.toNat + 32) else c

/-- JS `i.trim().toLowerCase()`. -/
def normalizeToken (s : String) : String :=
  ((trimChars s.data).map toLowerChar).asString

/-- Embeds the interest parsing of `index.ts`:
`field ? field.split(',').map(i => i.trim().toLowerCase()) : []`.
The guard makes a falsy field (null or empty) parse to `[]`; a non-empty
field is split on commas and each token trimmed and lower-cased.  No
empty-token filtering is performed by the code. -/
def parseInterests (s : String) : List String :=
  if s = "" then [] else (splitComma s).map normalizeToken

/-- Embeds `mine.filter(i => theirs.includes(i)).length`: the number of
tokens of `mine`, counted with multiplicity, that occur in `theirs`. -/
def sharedCount (mine theirs : List String) : Nat :=
  (mine.filter (fun t => theirs.contains t)).length

/-- Embeds `(sharedAcademic * 2) + sharedNonAcademic` of `index.ts`. -/
def compatibilityScore (cur cand : Profile) : Nat :=
  2 * sharedCount (parseInterests cur.profile_academic_interests)
        (parseInterests cand.profile_academic_interests)
    + sharedCount (parseInterests cur.profile_non_academic_interests)
        (parseInterests cand.profile_non_academic_interests)

/-- Embeds the `existingMatches` query (`.or(match_user1_id.eq.uid,
match_user2_id.eq.uid)`) followed by the `flatMap` that picks the counterpart
of each row; statuses are not consulted. -/
def matchedUserIds (db : Db) (uid : String) : List String :=
  (db.matches.filter
      (fun m => m.match_user1_id == uid || m.match_user2_id == uid)).map
    (fun m => if m.match_user1_id == uid then m.match_user2_id
              else m.match_user1_id)

/-- Embeds the `blockedUsers` query: ids the given user has blocked. -/
def blockedUserIds (db : Db) (uid : String) : List String :=
  (db.blocked_users.filter (fun b => b.blocker_id == uid)).map
    (fun b => b.blocked_id)

/-- Embeds the `blockedByUsers` query: ids of users who blocked `uid`. -/
def blockedByUserIds (db : Db) (uid : String) : List String :=
  (db.blocked_users.filter (fun b => b.blocked_id == uid)).map
    (fun b => b.blocker_id)

/-- A ranked suggestion: the candidate's (flattened) profile fields together
with the computed `compatibility_score`. -/
structure Suggestion where
  profile : Profile
  compatibility_score : Nat
deriving DecidableEq, Repr

/-- Stable insertion step for the descending sort by score, mirroring
`sort((a, b) => b.compatibility_score - a.compatibility_score)`. -/
def insertByScoreDesc (x : Suggestion) : List Suggestion → List Suggestion
  | [] => [x]
  | y :: ys =>
    if y.compatibility_score < x.compatibility_score then x :: y :: ys
    else y :: insertByScoreDesc x ys

/-- Stable sort of suggestions by descending compatibility score. -/
def sortByScoreDesc (l : List Suggestion) : List Suggestion :=
  l.foldr insertByScoreDesc []

/-- Embeds the `suggestedProfiles` pipeline of `index.ts`: the `allProfiles`
query excludes the requester's own row (`.neq('user_id', user.id)`), the JS
`filter` drops candidates present in any of the three exclusion sets, the
`map` attaches the compatibility score, and the result is sorted descending
by score. -/
def suggestedProfiles (db : Db) (cur : Profile) : List Suggestion :=
  sortByScoreDesc
    (((db.profiles.filter (fun p => !(p.user_id == cur.user_id))).filter
        (fun p =>
          !((matchedUserIds db cur.user_id).contains p.user_id) &&
          !((blockedUserIds db cur.user_id).contains p.user_id) &&
          !((blockedByUserIds db cur.user_id).contains p.user_id))).map
      (fun p => { profile := p, compatibility_score := compatibilityScore cur p }))

/-- The descending-by-score order the final `sort` is supposed to establish. -/
def ScoreSortedDesc (l : List Suggestion) : Prop :=
  l.Pairwise (fun a b => b.compatibility_score ≤ a.compatibility_score)

lemma mem_insertByScoreDesc (a x : Suggestion) (l : List Suggestion) :
    a ∈ insertByScoreDesc x l ↔ a = x ∨ a ∈ l := by
  induction l with
  | nil => simp [insertByScoreDesc]
  | cons y ys ih =>
    unfold insertByScoreDesc
    split
    · simp [List.mem_cons]
    · simp only [List.mem_cons, ih]
      tauto

lemma sorted_insertByScoreDesc (x : Suggestion) (l : List Suggestion)
    (h : ScoreSortedDesc l) : ScoreSortedDesc (insertByScoreDesc x l) := by
  induction l with
  | nil =>
    simp [insertByScoreDesc, ScoreSortedDesc]
  | cons y ys ih =>
    rcases List.pairwise_cons.mp h with ⟨hy, hys⟩
    unfold insertByScoreDesc
    split
    case isTrue hlt =>
      refine List.pairwise_cons.mpr ⟨?_, h⟩
      intro b hb
      rcases List.mem_cons.mp hb with rfl | hb'
      · exact Nat.le_of_lt hlt
      · exact Nat.le_trans (hy b hb') (Nat.le_of_lt hlt)
    case isFalse hge =>
      refine List.pairwise_cons.mpr ⟨?_, ih hys⟩
      intro b hb
      rcases (mem_insertByScoreDesc b x ys).mp hb with rfl | hb'
      · exact Nat.le_of_not_lt hge
      · exact hy b hb'

lemma scoreSortedDesc_sortByScoreDesc (l : List Suggestion) :
    ScoreSortedDesc (sortByScoreDesc l) := by
  induction l with
  | nil => simp [sortByScoreDesc, ScoreSortedDesc]
  | cons x xs ih => exact sorted_insertByScoreDesc x _ ih

lemma mem_sortByScoreDesc (a : Suggestion) (l : List Suggestion) :
    a ∈ sortByScoreDesc l ↔ a ∈ l := by
  induction l with
  | nil => simp [sortByScoreDesc]
  | cons x xs ih =>
    show a ∈ insertByScoreDesc x (sortByScoreDesc xs) ↔ _
    rw [mem_insertByScoreDesc]
    simp [ih, List.mem_cons]

/-- Characterisation of membership in the ranked suggestion list: exactly the
profiles of the store that survive the self-exclusion and the three
exclusion-set checks, carrying their computed score. -/
lemma mem_suggestedProfiles (db : Db) (cur : Profile) (s : Suggestion) :
    s ∈ suggestedProfiles db cur ↔
      ∃ p, p ∈ db.profiles ∧
        p.user_id ≠ cur.user_id ∧
        p.user_id ∉ matchedUserIds db cur.user_id ∧
        p.user_id ∉ blockedUserIds db cur.user_id ∧
        p.user_id ∉ blockedByUserIds db cur.user_id ∧
        s = { profile := p, compatibility_score := compatibilityScore cur p } := by
  unfold suggestedProfiles
  rw [mem_sortByScoreDesc]
  simp only [List.mem_map, List.mem_filter, Bool.and_eq_true, Bool.not_eq_true',
    beq_eq_false_iff_ne, ne_eq, List.elem_eq_mem, decide_eq_false_iff_not]
  constructor
  · rintro ⟨p, ⟨⟨hp, hne⟩, ⟨hm, hb⟩, hbb⟩, rfl⟩
    exact ⟨p, hp, hne, hm, hb, hbb, rfl⟩
  · rintro ⟨p, hp, hne, hm, hb, hbb, rfl⟩
    exact ⟨p, ⟨⟨hp, hne⟩, ⟨hm, hb⟩, hbb⟩, rfl⟩

/-- A relationship row exists between `a` and `b`, in either direction,
whatever its status. -/
def hasMatchRowBetween (db : Db) (a b : String) : Prop :=
  ∃ m ∈ db.«matches»,
    (m.match_user1_id = a ∧ m.match_user2_id = b) ∨
    (m.match_user1_id = b ∧ m.match_user2_id = a)

/-- A block row exists with the given blocker and blocked parties. -/
def hasBlockRow (db : Db) (blocker blocked : String) : Prop :=
  ∃ r ∈ db.blocked_users, r.blocker_id = blocker ∧ r.blocked_id = blocked

instance (db : Db) (a b : String) : Decidable (hasMatchRowBetween db a b) := by
  unfold hasMatchRowBetween
  infer_instance

instance (db : Db) (a b : String) : Decidable (hasBlockRow db a b) := by
  unfold hasBlockRow
  infer_instance

lemma hasMatchRowBetween_symm {db : Db} {a b : String}
    (h : hasMatchRowBetween db a b) : hasMatchRowBetween db b a := by
  obtain ⟨m, hm, hc⟩ := h
  exact ⟨m, hm, hc.symm⟩

lemma mem_matchedUserIds_of_hasMatchRowBetween {db : Db} {a b : String}
    (h : hasMatchRowBetween db a b) : b ∈ matchedUserIds db a := by
  obtain ⟨m, hm, hcase⟩ := h
  unfold matchedUserIds
  rcases hcase with ⟨h1, h2⟩ | ⟨h1, h2⟩
  · refine List.mem_map.mpr ⟨m, List.mem_filter.mpr ⟨hm, ?_⟩, ?_⟩
    · simp [h1]
    · simp [h1, h2]
  · refine List.mem_map.mpr ⟨m, List.mem_filter.mpr ⟨hm, ?_⟩, ?_⟩
    · simp [h2]
    · rw [h1, h2]
      rcases eq_or_ne b a with hab | hab
      · simp [hab]
      · simp [hab]

lemma mem_blockedUserIds_of_hasBlockRow {db : Db} {u v : String}
    (h : hasBlockRow db u v) : v ∈ blockedUserIds db u := by
  obtain ⟨r, hr, h1, h2⟩ := h
  unfold blockedUserIds
  exact List.mem_map.mpr ⟨r, List.mem_filter.mpr ⟨hr, by simp [h1]⟩, h2⟩

lemma mem_blockedByUserIds_of_hasBlockRow {db : Db} {u v : String}
    (h : hasBlockRow db v u) : v ∈ blockedByUserIds db u := by
  obtain ⟨r, hr, h1, h2⟩ := h
  unfold blockedByUserIds
  exact List.mem_map.mpr ⟨r, List.mem_filter.mpr ⟨hr, by simp [h2]⟩, h1⟩

lemma suggested_userIds_contains_iff (db : Db) (cur : Profile) (v : String) :
    ((suggestedProfiles db cur).map (fun s => s.profile.user_id)).contains v
      = true ↔ ∃ s ∈ suggestedProfiles db cur, s.profile.user_id = v := by
  simp only [List.elem_eq_mem, decide_eq_true_eq, List.mem_map]

lemma suggested_not_contains_of_mem_matched {db : Db} {cur : Profile}
    {v : String} (hv : v ∈ matchedUserIds db cur.user_id) :
    ((suggestedProfiles db cur).map (fun s => s.profile.user_id)).contains v
      = false := by
  rw [Bool.eq_false_iff]
  intro hc
  obtain ⟨s, hs, hsv⟩ := (suggested_userIds_contains_iff db cur v).mp hc
  obtain ⟨p, _, _, hm, _, _, rfl⟩ := (mem_suggestedProfiles db cur s).mp hs
  exact hm (hsv ▸ hv)

lemma suggested_not_contains_of_mem_blocked {db : Db} {cur : Profile}
    {v : String} (hv : v ∈ blockedUserIds db cur.user_id) :
    ((suggestedProfiles db cur).map (fun s => s.profile.user_id)).contains v
      = false := by
  rw [Bool.eq_false_iff]
  intro hc
  obtain ⟨s, hs, hsv⟩ := (suggested_userIds_contains_iff db cur v).mp hc
  obtain ⟨p, _, _, _, hb, _, rfl⟩ := (mem_suggestedProfiles db cur s).mp hs
  exact hb (hsv ▸ hv)

lemma suggested_not_contains_of_mem_blockedBy {db : Db} {cur : Profile}
    {v : String} (hv : v ∈ blockedByUserIds db cur.user_id) :
    ((suggestedProfiles db cur).map (fun s => s.profile.user_id)).contains v
      = false := by
  rw [Bool.eq_false_iff]
  intro hc
  obtain ⟨s, hs, hsv⟩ := (suggested_userIds_contains_iff db cur v).mp hc
  obtain ⟨p, _, _, _, _, hbb, rfl⟩ := (mem_suggestedProfiles db cur s).mp hs
  exact hbb (hsv ▸ hv)

/-- C3: if a relationship row exists between two users in either direction,
whatever its status (pending, accepted, or anything else), then neither user
appears in the suggestion list computed for the other. -/
theorem match_row_excludes_both (db : Db) (cu cv : Profile)
    (h : hasMatchRowBetween db cu.user_id cv.user_id) :
    ((suggestedProfiles db cu).map (fun s => s.profile.user_id)).contains
        cv.user_id = false ∧
    ((suggestedProfiles db cv).map (fun s => s.profile.user_id)).contains
        cu.user_id = false :=
  ⟨suggested_not_contains_of_mem_matched
      (mem_matchedUserIds_of_hasMatchRowBetween h),
   suggested_not_contains_of_mem_matched
      (mem_matchedUserIds_of_hasMatchRowBetween (hasMatchRowBetween_symm h))⟩

/-- C4: if a block row exists with U as blocker and V as blocked, or with V
as blocker and U as blocked, then V does not appear in U's suggestion
list. -/
theorem block_row_excludes_suggestion (db : Db) (cu : Profile) (v : String)
    (h : hasBlockRow db cu.user_id v ∨ hasBlockRow db v cu.user_id) :
    ((suggestedProfiles db cu).map (fun s => s.profile.user_id)).contains v
      = false := by
  rcases h with h | h
  · exact suggested_not_contains_of_mem_blocked
      (mem_blockedUserIds_of_hasBlockRow h)
  · exact suggested_not_contains_of_mem_blockedBy
      (mem_blockedByUserIds_of_hasBlockRow h)

/-- C5: the suggestion list computed for a user never contains that user's
own profile (the candidate query excludes the requester's user id). -/
theorem self_never_suggested (db : Db) (cu : Profile) :
    ((suggestedProfiles db cu).map (fun s => s.profile.user_id)).contains
      cu.user_id = false := by
  rw [Bool.eq_false_iff]
  intro hc
  obtain ⟨s, hs, hsv⟩ := (suggested_userIds_contains_iff db cu cu.user_id).mp hc
  obtain ⟨p, _, hne, _, _, _, rfl⟩ := (mem_suggestedProfiles db cu s).mp hs
  exact hne hsv

/-- C9: a candidate profile that passes the self, relationship and block
exclusions is included in the suggestion list.  The profile `p` here is
arbitrary, so in particular its `user_priset_is_private` flag may take either
value: the filter in `index.ts` never consults it. -/
theorem private_flag_does_not_hide_suggestion (db : Db) (cur p : Profile)
    (hp : p ∈ db.profiles)
    (hne : p.user_id ≠ cur.user_id)
    (hm : p.user_id ∉ matchedUserIds db cur.user_id)
    (hb : p.user_id ∉ blockedUserIds db cur.user_id)
    (hbb : p.user_id ∉ blockedByUserIds db cur.user_id) :
    ((suggestedProfiles db cur).map (fun s => s.profile)).contains p = true := by
  have hmem :
      ({ profile := p, compatibility_score := compatibilityScore cur p } :
        Suggestion) ∈ suggestedProfiles db cur :=
    (mem_suggestedProfiles db cur _).mpr ⟨p, hp, hne, hm, hb, hbb, rfl⟩
  simp only [List.elem_eq_mem, decide_eq_true_eq, List.mem_map]
  exact ⟨_, hmem, rfl⟩

/-- Renders the spec sentence for the compatibility score: the number of
distinct tokens shared by the two lists, i.e. the cardinality of the
intersection of the two token sets (`dedup` turns a token list into an
enumeration of its token set). -/
def specSharedCard (a b : List String) : Nat :=
  (a.dedup.filter (fun t => b.contains t)).length

/-- Renders the spec's claimed formula: 2 times the cardinality of the
intersection of the academic token sets plus 1 times the cardinality of the
intersection of the non-academic token sets. -/
def specCompatibilityScore (cur cand : Profile) : Nat :=
  2 * specSharedCard (parseInterests cur.profile_academic_interests)
        (parseInterests cand.profile_academic_interests)
    + specSharedCard (parseInterests cur.profile_non_academic_interests)
        (parseInterests cand.profile_non_academic_interests)

/-- Sanity check that `specSharedCard` is the cardinality of the intersection
of the two token sets. -/
lemma specSharedCard_eq_card_inter (a b : List String) :
    specSharedCard a b = (a.toFinset ∩ b.toFinset).card := by
  unfold specSharedCard
  have hnd : (a.dedup.filter (fun t => b.contains t)).Nodup :=
    a.nodup_dedup.filter _
  rw [← List.toFinset_card_of_nodup hnd]
  congr 1
  ext x
  simp [List.mem_filter, List.mem_dedup, List.elem_eq_mem]

/-- A profile with the given user id and interests fields; the remaining
fields are inessential defaults. -/
def mkProfile (uid acad nonacad : String) : Profile :=
  { profile_id := 0, user_id := uid, profile_username := uid
  , profile_bio := "", profile_birthdate := ""
  , profile_academic_interests := acad
  , profile_non_academic_interests := nonacad
  , profile_looking_for := "", profile_avatar_url := ""
  , profile_gender := "", profile_phone := ""
  , user_priset_show_age := true, user_priset_show_bio := true
  , user_priset_is_private := false }

/-- C1 fails as stated: with requester academic interests "math,math" and
candidate academic interests "math", the code scores 4 (each requester token
is counted, with multiplicity, when it occurs among the candidate's tokens)
while 2 times the cardinality of the intersection of the token sets is 2. -/
theorem score_set_intersection_counterexample :
    compatibilityScore (mkProfile "a" "math,math" "") (mkProfile "b" "math" "")
        = 4 ∧
    specCompatibilityScore (mkProfile "a" "math,math" "")
        (mkProfile "b" "math" "") = 2 := by
  constructor <;> rfl

/-- C1 amended: the score equals 2 times the number of requester academic
tokens, counted with multiplicity, occurring among the candidate's academic
tokens, plus the same count for non-academic tokens; the returned list is
sorted in descending order of this score; and whenever the requester's parsed
token lists are duplicate-free the score coincides with the claimed
set-intersection formula. -/
theorem score_multiplicity_and_sorted (db : Db) (cur : Profile) :
    ScoreSortedDesc (suggestedProfiles db cur) ∧
    (∀ s ∈ suggestedProfiles db cur,
        s.compatibility_score = compatibilityScore cur s.profile) ∧
    (∀ cand : Profile,
        (parseInterests cur.profile_academic_interests).Nodup →
        (parseInterests cur.profile_non_academic_interests).Nodup →
        compatibilityScore cur cand = specCompatibilityScore cur cand) := by
  refine ⟨scoreSortedDesc_sortByScoreDesc _, ?_, ?_⟩
  · intro s hs
    obtain ⟨p, _, _, _, _, _, rfl⟩ := (mem_suggestedProfiles db cur s).mp hs
    rfl
  · intro cand h1 h2
    unfold compatibilityScore specCompatibilityScore sharedCount specSharedCard
    rw [h1.dedup, h2.dedup]

/-- Witness for the amended C1 theorem at a concrete requester, candidate and
store. -/
theorem score_multiplicity_and_sorted_witness :
    compatibilityScore (mkProfile "a" "math" "chess") (mkProfile "b" "math,art" "go")
      = specCompatibilityScore (mkProfile "a" "math" "chess")
          (mkProfile "b" "math,art" "go") :=
  (score_multiplicity_and_sorted
      { users := [], profiles := [], «matches» := [], blocked_users := []
      , notifications := [] }
      (mkProfile "a" "math" "chess")).2.2
    (mkProfile "b" "math,art" "go") (by decide) (by decide)

/-- Renders the spec's parsing contract: split on commas, trim whitespace,
lower-case, and drop empty tokens. -/
def specParseInterests (s : String) : List String :=
  ((splitComma s).map normalizeToken).filter (fun t => !(t == ""))

/-- C2 fails as stated: parsing "a," keeps the empty token produced by the
trailing comma, where the claimed contract would drop it. -/
theorem parse_keeps_empty_tokens_counterexample :
    parseInterests "a," = ["a", ""] ∧ specParseInterests "a," = ["a"] := by
  constructor <;> rfl

/-- C2 amended: the parser splits on commas, trims and lower-cases each
token, but does not drop empty tokens (a wholly empty or missing field still
parses to the empty list): removing the empty tokens from the code's parse
yields exactly the claimed parse, and the code's parse can contain the empty
token, which then participates in shared-token counts. -/
theorem parse_split_trim_lower_no_empty_drop :
    (∀ s : String,
        (parseInterests s).filter (fun t => !(t == "")) = specParseInterests s) ∧
    "" ∈ parseInterests "a," := by
  constructor
  · intro s
    unfold parseInterests specParseInterests
    split
    case isTrue h => subst h; rfl
    case isFalse h => rfl
  · decide

/-- The authenticated user as seen by `supabase.auth.getUser()`. -/
structure AuthUser where
  id : String
  email : String
  phone : String
  email_confirmed : Bool
  phone_confirmed : Bool
deriving DecidableEq, Repr

/-- Outcome of the authentication check: a user, or `userError || !user`. -/
inductive AuthResult where
  | ok (u : AuthUser)
  | err
deriving DecidableEq, Repr

/-- Whether each backend read (or the user-record insert) fails.  A `true`
flag models a network or query error at that step, the situation the code
meets as a non-PGRST116 error object. -/
structure FetchFailures where
  userCheck : Bool
  createUser : Bool
  currentProfile : Bool
  profilesFetch : Bool
  matchesFetch : Bool
  blockedFetch : Bool
  blockedByFetch : Bool
deriving DecidableEq, Repr

/-- The JSON body of the edge function's response. -/
inductive ResponseBody where
  | suggestions (l : List Suggestion)
  | advisory (l : List Suggestion) (message : String)
  | error (message : String)
deriving DecidableEq, Repr

/-- Whether the body is the `{ error: ... }` shape of the catch handler. -/
def ResponseBody.isError : ResponseBody → Bool
  | ResponseBody.error _ => true
  | _ => false

/-- An HTTP response: status code and JSON body. -/
structure Response where
  status : Nat
  body : ResponseBody
deriving DecidableEq, Repr

/-- Embeds the catch handler of `index.ts`: every thrown error is serialised
as `{ error: message }` with status 400. -/
def errorResponse (msg : String) : Response :=
  { status := 400, body := ResponseBody.error msg }

/-- The users-table row the edge function inserts for a caller that has no
user record yet. -/
def newUserRow (u : AuthUser) : UserRow :=
  { user_id := u.id, user_email := u.email, user_phone := u.phone
  , user_email_verified := u.email_confirmed
  , user_phone_verified := u.phone_confirmed }

/-- Embeds the tail of the edge function after the user-record check: the
current-profile lookup (PGRST116, i.e. no row, yields the 200 advisory
response), then the profiles, matches, blocked and blocked-by reads, then
scoring and the 200 response.  This part performs no writes. -/
def rankAfterUserCheck (u : AuthUser) (db : Db) (ff : FetchFailures) :
    Response :=
  if ff.currentProfile then errorResponse "Current user profile not found"
  else
    match db.profiles.find? (fun p => p.user_id == u.id) with
    | none =>
      { status := 200
      , body := ResponseBody.advisory []
          "Please complete your profile setup first" }
    | some cur =>
      if ff.profilesFetch then errorResponse "Failed to fetch profiles"
      else if ff.matchesFetch then
        errorResponse "Failed to fetch existing matches"
      else if ff.blockedFetch then
        errorResponse "Failed to fetch blocked users"
      else if ff.blockedByFetch then
        errorResponse "Failed to fetch users who blocked current user"
      else
        { status := 200
        , body := ResponseBody.suggestions (suggestedProfiles db cur) }

/-- Embeds the whole request handler of `index.ts`: authentication check,
user-record check with lazy creation of a missing users row, then
`rankAfterUserCheck`.  The second component is the store after the call, so
that the handler's writes are visible. -/
def handleRequest (auth : AuthResult) (db : Db) (ff : FetchFailures) :
    Response × Db :=
  match auth with
  | AuthResult.err => (errorResponse "User not authenticated", db)
  | AuthResult.ok u =>
    if ff.userCheck then (errorResponse "Failed to check user record", db)
    else if db.users.any (fun r => r.user_id == u.id) then
      (rankAfterUserCheck u db ff, db)
    else if ff.createUser then
      (errorResponse "Failed to create user record", db)
    else
      (rankAfterUserCheck u { db with users := db.users ++ [newUserRow u] } ff,
       { db with users := db.users ++ [newUserRow u] })

/-- C6: an authenticated caller whose profile row is absent receives a
success response: status 200 with exactly the empty suggestions array and
the advisory message, provided the reads leading there do not fail. -/
theorem missing_profile_advisory_response (u : AuthUser) (db : Db)
    (ff : FetchFailures)
    (h1 : ff.userCheck = false) (h2 : ff.createUser = false)
    (h3 : ff.currentProfile = false)
    (h4 : ∀ p ∈ db.profiles, p.user_id ≠ u.id) :
    (handleRequest (AuthResult.ok u) db ff).1 =
      { status := 200
      , body := ResponseBody.advisory []
          "Please complete your profile setup first" } := by
  have hfind : db.profiles.find? (fun p => p.user_id == u.id) = none := by
    rw [List.find?_eq_none]
    intro p hp
    simpa using h4 p hp
  cases hany : db.users.any (fun r => r.user_id == u.id) with
  | true => simp [handleRequest, rankAfterUserCheck, h1, h3, hany, hfind]
  | false => simp [handleRequest, rankAfterUserCheck, h1, h2, h3, hany, hfind]

lemma rankAfterUserCheck_error_status (u : AuthUser) (db : Db)
    (ff : FetchFailures) :
    (rankAfterUserCheck u db ff).body.isError = true →
    (rankAfterUserCheck u db ff).status = 400 := by
  unfold rankAfterUserCheck
  split
  · intro
    rfl
  · split
    · intro h
      simp [ResponseBody.isError] at h
    · split
      · intro
        rfl
      · split
        · intro
          rfl
        · split
          · intro
            rfl
          · split
            · intro
              rfl
            · intro h
              simp [ResponseBody.isError] at h

/-- C7 amended: the handler's error taxonomy collapses to a single status
code; every error-bodied response it produces, including the one for an
unauthenticated caller and the ones for backend read failures, carries HTTP
status 400 (the catch handler's fixed status), not 401 or 500. -/
theorem error_responses_use_status_400 (auth : AuthResult) (db : Db)
    (ff : FetchFailures)
    (h : (handleRequest auth db ff).1.body.isError = true) :
    (handleRequest auth db ff).1.status = 400 := by
  revert h
  cases auth with
  | err =>
    intro
    rfl
  | ok u =>
    simp only [handleRequest]
    split
    · intro
      rfl
    · split
      · exact rankAfterUserCheck_error_status u db ff
      · split
        · intro
          rfl
        · exact rankAfterUserCheck_error_status u _ ff

/-- C8 amended: an invocation never touches the profiles, matches,
blocked-users or notifications tables, and modifies the users table only by
lazily inserting the caller's user row; when that row already exists, the
store after the call is exactly the store before it. -/
theorem only_user_row_insert_side_effect (auth : AuthResult) (db : Db)
    (ff : FetchFailures) :
    ((handleRequest auth db ff).2.profiles = db.profiles ∧
     (handleRequest auth db ff).2.«matches» = db.«matches» ∧
     (handleRequest auth db ff).2.blocked_users = db.blocked_users ∧
     (handleRequest auth db ff).2.notifications = db.notifications) ∧
    ∀ u : AuthUser, auth = AuthResult.ok u →
      db.users.any (fun r => r.user_id == u.id) = true →
      (handleRequest auth db ff).2 = db := by
  cases auth with
  | err =>
    refine ⟨⟨rfl, rfl, rfl, rfl⟩, ?_⟩
    intro u hu _
    cases hu
  | ok u =>
    simp only [handleRequest]
    split
    case isTrue => exact ⟨⟨rfl, rfl, rfl, rfl⟩, fun u' _ _ => rfl⟩
    case isFalse =>
      split
      case isTrue => exact ⟨⟨rfl, rfl, rfl, rfl⟩, fun u' _ _ => rfl⟩
      case isFalse hany =>
        split
        case isTrue => exact ⟨⟨rfl, rfl, rfl, rfl⟩, fun u' _ _ => rfl⟩
        case isFalse =>
          refine ⟨⟨rfl, rfl, rfl, rfl⟩, ?_⟩
          intro u' hu' hany'
          injection hu' with hu
          rw [← hu] at hany'
          exact absurd hany' hany

/-- Embeds `handleRejectMatch` of the status-flag notifications page: set
the match row's status to "rejected" and mark the notification read.  The
match row itself persists. -/
def handleRejectMatch (db : Db) (notificationId matchId : Nat) : Db :=
  { db with
    «matches» := db.«matches».map
      (fun m => if m.match_id == matchId then { m with status := "rejected" }
                else m)
  , notifications := db.notifications.map
      (fun n => if n.id == notificationId then { n with read := true }
                else n) }

/-- Embeds `handleRejectRequest` of `Notifications.tsx`: delete the
notification; the matches table is untouched. -/
def handleRejectRequest (db : Db) (notificationId : Nat) : Db :=
  { db with
    notifications := db.notifications.filter
      (fun n => !(n.id == notificationId)) }

/-- Embeds the non-private branch of `Dashboard.tsx handleConnect`: insert a
matches row with status "pending" and a match_request notification (row ids
are assigned by the store; they are parameters here). -/
def handleConnectRequest (db : Db) (fromId toId : String)
    (matchId notifId : Nat) (username : String) : Db :=
  { db with
    «matches» := db.«matches» ++ [⟨matchId, fromId, toId, "pending"⟩]
  , notifications := db.notifications ++
      [⟨notifId, toId, fromId, "match_request",
        username ++ " wants to connect with you!", false⟩] }

/-- A store with no rows at all. -/
def emptyDb : Db :=
  { users := [], profiles := [], «matches» := [], blocked_users := []
  , notifications := [] }

/-- A sample authenticated user. -/
def uA : AuthUser := ⟨"a", "a@example.com", "", true, false⟩

/-- No backend read fails. -/
def ffNone : FetchFailures := ⟨false, false, false, false, false, false, false⟩

/-- The matches read fails; everything else succeeds. -/
def ffMatchesFail : FetchFailures :=
  ⟨false, false, false, false, true, false, false⟩

/-- A store holding user "a"'s user row and profile. -/
def dbUserA : Db :=
  { users := [newUserRow uA], profiles := [mkProfile "a" "" ""]
  , «matches» := [], blocked_users := [], notifications := [] }

/-- A store with two profiles joined by a pending match row. -/
def dbMatchPair : Db :=
  { users := [], profiles := [mkProfile "a" "" "", mkProfile "b" "" ""]
  , «matches» := [⟨1, "a", "b", "pending"⟩], blocked_users := []
  , notifications := [] }

/-- A store with two profiles where "a" has blocked "b". -/
def dbBlockPair : Db :=
  { users := [], profiles := [mkProfile "a" "" "", mkProfile "b" "" ""]
  , «matches» := [], blocked_users := [⟨"a", "b"⟩], notifications := [] }

/-- A private profile: same defaults, but `user_priset_is_private` is set. -/
def pPriv : Profile :=
  { mkProfile "c" "" "" with user_priset_is_private := true }

/-- A store containing a private candidate profile. -/
def dbWithPrivate : Db :=
  { users := [], profiles := [mkProfile "a" "" "", pPriv]
  , «matches» := [], blocked_users := [], notifications := [] }

/-- Witness for C3 at a concrete store: the pending match row between "a"
and "b" removes each from the other's suggestions. -/
theorem match_row_excludes_both_witness :
    ((suggestedProfiles dbMatchPair (mkProfile "a" "" "")).map
        (fun s => s.profile.user_id)).contains "b" = false ∧
    ((suggestedProfiles dbMatchPair (mkProfile "b" "" "")).map
        (fun s => s.profile.user_id)).contains "a" = false :=
  match_row_excludes_both dbMatchPair (mkProfile "a" "" "")
    (mkProfile "b" "" "") (by decide)

/-- Witness for C4 at a concrete store: the block row from "a" to "b"
removes "b" from "a"'s suggestions. -/
theorem block_row_excludes_suggestion_witness :
    ((suggestedProfiles dbBlockPair (mkProfile "a" "" "")).map
        (fun s => s.profile.user_id)).contains "b" = false :=
  block_row_excludes_suggestion dbBlockPair (mkProfile "a" "" "") "b"
    (Or.inl (by decide))

/-- Witness for C6 at a concrete store with no profile rows. -/
theorem missing_profile_advisory_response_witness :
    (handleRequest (AuthResult.ok uA) emptyDb ffNone).1 =
      { status := 200
      , body := ResponseBody.advisory []
          "Please complete your profile setup first" } :=
  missing_profile_advisory_response uA emptyDb ffNone rfl rfl rfl (by decide)

/-- C7 is false as stated: the unauthenticated caller receives status 400,
not 401, and a failed matches read receives status 400, not 500; the catch
handler assigns 400 to every thrown error. -/
theorem error_status_counterexample :
    ((handleRequest AuthResult.err emptyDb ffNone).1.status = 400 ∧
      ¬ (handleRequest AuthResult.err emptyDb ffNone).1.status = 401) ∧
    ((handleRequest (AuthResult.ok uA) dbUserA ffMatchesFail).1.status = 400 ∧
      ¬ (handleRequest (AuthResult.ok uA) dbUserA
            ffMatchesFail).1.status = 500) := by
  decide

/-- Witness for the amended C7 theorem at a concrete unauthenticated call. -/
theorem error_responses_use_status_400_witness :
    (handleRequest AuthResult.err emptyDb ffNone).1.status = 400 :=
  error_responses_use_status_400 AuthResult.err emptyDb ffNone (by decide)

/-- C8 is false as stated: an authenticated call by a user with no users row
inserts that row, a durable write, so the store after the call differs from
the store before it. -/
theorem user_insert_side_effect_counterexample :
    (handleRequest (AuthResult.ok uA) emptyDb ffNone).2.users
        = [newUserRow uA] ∧
    ¬ (handleRequest (AuthResult.ok uA) emptyDb ffNone).2 = emptyDb := by
  decide

/-- Witness for the amended C8 theorem: when the caller's users row exists,
the store is unchanged. -/
theorem only_user_row_insert_side_effect_witness :
    (handleRequest (AuthResult.ok uA) dbUserA ffNone).2 = dbUserA :=
  (only_user_row_insert_side_effect (AuthResult.ok uA) dbUserA ffNone).2 uA
    rfl (by decide)

/-- Witness for C9 at a concrete store: the private profile `pPriv` passes
the exclusions and is suggested. -/
theorem private_flag_does_not_hide_suggestion_witness :
    ((suggestedProfiles dbWithPrivate (mkProfile "a" "" "")).map
        (fun s => s.profile)).contains pPriv = true :=
  private_flag_does_not_hide_suggestion dbWithPrivate (mkProfile "a" "" "")
    pPriv (by decide) (by decide) (by decide) (by decide) (by decide)

/-- A store where "b" has sent "a" a connection request in the status-flag
model: a pending match row plus a match_request notification. -/
def dbPendingRequest : Db :=
  { users := [], profiles := [mkProfile "a" "" "", mkProfile "b" "" ""]
  , «matches» := [⟨1, "b", "a", "pending"⟩]
  , blocked_users := []
  , notifications :=
      [⟨1, "a", "b", "match_request", "b wants to connect with you!", false⟩] }

/-- A store with the two profiles and no relationship rows yet. -/
def dbNoRelationship : Db :=
  { users := [], profiles := [mkProfile "a" "" "", mkProfile "b" "" ""]
  , «matches» := [], blocked_users := [], notifications := [] }

/-- C10 is contradicted by the code at this input.  In the status-flag flow,
rejecting the request keeps the match row as a persistent "rejected"
tombstone, and since the ranker's relationship query ignores status, each
user stays excluded from the other's suggestions.  In the wired-in flow,
sending a request (Dashboard) inserts a "pending" match row and rejecting it
(Notifications) deletes only the notification, so the pair again does not
return to the no-relationship state and the requester "b" stays excluded
from the rejecter "a"'s suggestions. -/
theorem reject_leaves_tombstone_eval :
    (handleRejectMatch dbPendingRequest 1 1).«matches»
        = [⟨1, "b", "a", "rejected"⟩] ∧
    ((suggestedProfiles (handleRejectMatch dbPendingRequest 1 1)
          (mkProfile "a" "" "")).map
        (fun s => s.profile.user_id)).contains "b" = false ∧
    (handleRejectRequest
          (handleConnectRequest dbNoRelationship "b" "a" 1 1 "b") 1).«matches»
        = [⟨1, "b", "a", "pending"⟩] ∧
    ((suggestedProfiles
          (handleRejectRequest
            (handleConnectRequest dbNoRelationship "b" "a" 1 1 "b") 1)
          (mkProfile "a" "" "")).map
        (fun s => s.profile.user_id)).contains "b" = false := by
  decide

end Informatch
